import Mathlib

/-!
Verification of the ArVCC4 pan/tilt/zoom camera driver (AriaCoda) against its
specification.  The repository source is the header `src/include/Aria/ArVCC4.h`;
constants, enumerations and inline member functions are embedded from that
header.  Member functions only declared in the header (their bodies live in
`ArVCC4.cpp`, which is not among the given sources) are modelled from the
specification, and each such definition says so in its doc comment.

Doubles are modelled as rationals; machine integers as `Int`/`Nat`.
-/

namespace ArVCC4

/-! Constants from the preprocessor defines at the top of ArVCC4.h. -/

def MAX_RESPONSE_BYTES : ℕ := 14

def BIDIRECTIONAL_TIMEOUT : ℕ := 5000

def UNIDIRECTIONAL_TIMEOUT : ℕ := 300

def AUTO_UPDATE_TIME : ℕ := 2000

/-- TOLERANCE is `.1` in the header: how far desired and sent positions must
diverge before a command is sent to the camera. -/
def TOLERANCE : ℚ := 1 / 10

/-! The `ArVCC4Commands::Command` opcode values from the header. -/

def DELIM : ℕ := 0x00

def DEVICEID : ℕ := 0x30

def PANSLEW : ℕ := 0x50

def TILTSLEW : ℕ := 0x51

def STOP : ℕ := 0x53

def INIT : ℕ := 0x58

def SLEWREQ : ℕ := 0x59

def ANGLEREQ : ℕ := 0x5c

def PANTILT : ℕ := 0x62

def SETRANGE : ℕ := 0x64

def PANTILTREQ : ℕ := 0x63

def INFRARED : ℕ := 0x76

def PRODUCTNAME : ℕ := 0x87

def LEDCONTROL : ℕ := 0x8E

def CONTROL : ℕ := 0x90

def POWER : ℕ := 0xA0

def AUTOFOCUS : ℕ := 0xA1

def ZOOMSTOP : ℕ := 0xA2

def GAIN : ℕ := 0xA5

def FOCUS : ℕ := 0xB0

def ZOOM : ℕ := 0xB3

def ZOOMREQ : ℕ := 0xB4

def IRCUTFILTER : ℕ := 0xB5

def DIGITALZOOM : ℕ := 0xB7

def FOOTER : ℕ := 0xEF

def RESPONSE : ℕ := 0xFE

def HEADER : ℕ := 0xFF

/-- The `ArVCC4::CommState` enumeration. -/
inductive CommState where
  | COMM_UNKNOWN : CommState
  | COMM_BIDIRECTIONAL : CommState
  | COMM_UNIDIRECTIONAL : CommState
deriving DecidableEq, Repr

/-- The `ArVCC4::CameraType` enumeration. -/
inductive CameraType where
  | CAMERA_VCC4 : CameraType
  | CAMERA_C50I : CameraType
deriving DecidableEq, Repr

/-! The `ArVCC4::Param` enumeration: preset limits on movements. -/

def MAX_PAN : ℤ := 98

def MIN_PAN : ℤ := -98

def MAX_TILT : ℤ := 88

def MIN_TILT : ℤ := -30

def MAX_PAN_SLEW : ℤ := 90

def MIN_PAN_SLEW : ℤ := 1

def MAX_TILT_SLEW : ℤ := 69

def MIN_TILT_SLEW : ℤ := 1

def MAX_ZOOM_OPTIC : ℤ := 1960

def MIN_ZOOM : ℤ := 0

/-! The `ArVCC4::Error` enumeration values: error states the camera returns. -/

def CAM_ERROR_NONE : ℕ := 0x30

def CAM_ERROR_BUSY : ℕ := 0x31

def CAM_ERROR_PARAM : ℕ := 0x35

def CAM_ERROR_MODE : ℕ := 0x39

def CAM_ERROR_UNKNOWN : ℕ := 0xFF

/-- The data members of `ArVCC4` that the inline member functions in the header
read and write.  C++ `double` fields are `ℚ`, `int` fields are `ℤ`, `bool`
fields are `Bool`. -/
structure State where
  myPan : ℚ
  myTilt : ℚ
  myZoom : ℤ
  myDigitalZoom : ℤ
  myFocusMode : ℤ
  myPanResponse : ℚ
  myTiltResponse : ℚ
  myZoomResponse : ℤ
  myPanSent : ℚ
  myTiltSent : ℚ
  myZoomSent : ℤ
  myPanSlewSent : ℚ
  myTiltSlewSent : ℚ
  myPanSlew : ℚ
  myTiltSlew : ℚ
  myPanDesired : ℚ
  myTiltDesired : ℚ
  myZoomDesired : ℤ
  myDigitalZoomDesired : ℤ
  myFocusModeDesired : ℤ
  myPanSlewDesired : ℚ
  myTiltSlewDesired : ℚ
  myPowerState : Bool
  myCameraIsInitted : Bool
  myPowerStateDesired : Bool
  myInitRequested : Bool
  myHaltZoomRequested : Bool
  myHaltPanTiltRequested : Bool
  myCameraHasBeenInitted : Bool
  myRealPanTiltRequested : Bool
  myRealZoomRequested : Bool
  myWasError : Bool
  myCommType : CommState

/-- A state with every field zero / false / unknown, used to build concrete
states for witnesses. -/
def initialState : State :=
  { myPan := 0, myTilt := 0, myZoom := 0, myDigitalZoom := 0, myFocusMode := 0,
    myPanResponse := 0, myTiltResponse := 0, myZoomResponse := 0,
    myPanSent := 0, myTiltSent := 0, myZoomSent := 0,
    myPanSlewSent := 0, myTiltSlewSent := 0,
    myPanSlew := 0, myTiltSlew := 0,
    myPanDesired := 0, myTiltDesired := 0, myZoomDesired := 0,
    myDigitalZoomDesired := 0, myFocusModeDesired := 0,
    myPanSlewDesired := 0, myTiltSlewDesired := 0,
    myPowerState := false, myCameraIsInitted := false,
    myPowerStateDesired := false, myInitRequested := false,
    myHaltZoomRequested := false, myHaltPanTiltRequested := false,
    myCameraHasBeenInitted := false, myRealPanTiltRequested := false,
    myRealZoomRequested := false, myWasError := false,
    myCommType := CommState.COMM_UNKNOWN }

/-! Inline member functions, embedded from the header.  Mutating members take
and return a `State` alongside their C++ return value. -/

/-- Header inline member: `bool power(bool state) { myPowerStateDesired = state; return true; }` -/
def power (state : Bool) (st : State) : Bool × State :=
  (true, { st with myPowerStateDesired := state })

/-- Header inline member: `bool getPower() { return myPowerState; }` -/
def getPower (st : State) : Bool :=
  st.myPowerState

/-- Header inline member: `bool init() { myInitRequested = true; return true; }` -/
def init (st : State) : Bool × State :=
  (true, { st with myInitRequested := true })

/-- Header inline member: `bool isInitted() { return myCameraIsInitted; }` -/
def isInitted (st : State) : Bool :=
  st.myCameraIsInitted

/-- Modelled from the spec: `ArVCC4::panTilt_i` is only declared in the header;
its body lives in `ArVCC4.cpp`, which is not among the given sources.  Per the
spec, a pan/tilt request records the caller-requested targets in the Desired
State (each independently settable by the caller at any time) and range
checking happens later, before packing; the request itself succeeds. -/
def panTilt_i (pdeg : ℚ) (tdeg : ℚ) (st : State) : Bool × State :=
  (true, { st with myPanDesired := pdeg, myTiltDesired := tdeg })

/-- Header inline member: `bool pan_i(double deg) { return panTilt_i(deg, myTiltDesired); }` -/
def pan_i (deg : ℚ) (st : State) : Bool × State :=
  panTilt_i deg st.myTiltDesired st

/-- Header inline member: `bool panRel_i(double deg) { return panTilt_i(myPanDesired + deg, myTiltDesired); }` -/
def panRel_i (deg : ℚ) (st : State) : Bool × State :=
  panTilt_i (st.myPanDesired + deg) st.myTiltDesired st

/-- Header inline member: `bool tilt_i(double deg) { return panTilt_i(myPanDesired, deg); }` -/
def tilt_i (deg : ℚ) (st : State) : Bool × State :=
  panTilt_i st.myPanDesired deg st

/-- Header inline member: `bool tiltRel_i(double deg) { return panTilt_i(myPanDesired, myTiltDesired + deg); }` -/
def tiltRel_i (deg : ℚ) (st : State) : Bool × State :=
  panTilt_i st.myPanDesired (st.myTiltDesired + deg) st

/-- Header inline member: `bool panTiltRel_i(double pdeg, double tdeg) { return panTilt_i(myPanDesired + pdeg, myTiltDesired + tdeg); }` -/
def panTiltRel_i (pdeg : ℚ) (tdeg : ℚ) (st : State) : Bool × State :=
  panTilt_i (st.myPanDesired + pdeg) (st.myTiltDesired + tdeg) st

/-- Header inline member: `bool haltPanTilt() { myHaltPanTiltRequested = true; return true; }` -/
def haltPanTilt (st : State) : Bool × State :=
  (true, { st with myHaltPanTiltRequested := true })

/-- Header inline member: `bool haltZoom() { myHaltZoomRequested = true; return true; }` -/
def haltZoom (st : State) : Bool × State :=
  (true, { st with myHaltZoomRequested := true })

/-- Header inline member: `bool panSlew(double deg) { myPanSlewDesired = deg; return true; }` -/
def panSlew (deg : ℚ) (st : State) : Bool × State :=
  (true, { st with myPanSlewDesired := deg })

/-- Header inline member: `bool tiltSlew(double deg) { myTiltSlewDesired = deg; return true; }` -/
def tiltSlew (deg : ℚ) (st : State) : Bool × State :=
  (true, { st with myTiltSlewDesired := deg })

/-- Header inline member: `double getPan_i() const { return myPanDesired; }` -/
def getPan_i (st : State) : ℚ :=
  st.myPanDesired

/-- Header inline member: `double getTilt_i() const { return myTiltDesired; }` -/
def getTilt_i (st : State) : ℚ :=
  st.myTiltDesired

/-- Header inline member: `int getZoom() const { return myZoomDesired; }` -/
def getZoom (st : State) : ℤ :=
  st.myZoomDesired

/-- Header inline member: `double getPanSlew() { return myPanSlewDesired; }` -/
def getPanSlew (st : State) : ℚ :=
  st.myPanSlewDesired

/-- Header inline member: `double getMaxPanSlew() { return MAX_PAN_SLEW; }` -/
def getMaxPanSlew (_st : State) : ℚ :=
  (MAX_PAN_SLEW : ℚ)

/-- Header inline member: `double getMinPanSlew() { return MIN_PAN_SLEW; }` -/
def getMinPanSlew (_st : State) : ℚ :=
  (MIN_PAN_SLEW : ℚ)

/-- Header inline member: `double getTiltSlew() { return myTiltSlewDesired; }` -/
def getTiltSlew (st : State) : ℚ :=
  st.myTiltSlewDesired

/-- Header inline member: `double getMaxTiltSlew() { return MAX_TILT_SLEW; }` -/
def getMaxTiltSlew (_st : State) : ℚ :=
  (MAX_TILT_SLEW : ℚ)

/-- Header inline member: `double getMinTiltSlew() { return MIN_TILT_SLEW; }` -/
def getMinTiltSlew (_st : State) : ℚ :=
  (MIN_TILT_SLEW : ℚ)

/-- Header inline member: `int getMinZoom() const { return MIN_ZOOM; }` -/
def getMinZoom (_st : State) : ℤ :=
  MIN_ZOOM

/-! Degree / protocol-unit conversion.  The header documents (section
VCC4UnitConversions) that pan and tilt commands work on units of
degrees / 0.1125, with the conversion always rounded closer to zero so that a
magnitude greater than the allowable range is never sent to the camera. -/

/-- One protocol unit is 0.1125 degrees. -/
def degPerUnit : ℚ := 1125 / 10000

/-- Rounding a rational toward zero (truncation). -/
def truncTowardZero (q : ℚ) : ℤ :=
  if 0 ≤ q then ⌊q⌋ else ⌈q⌉

/-- Modelled from the spec: the degree-to-protocol-unit conversion performed by
`ArVCC4::sendPanTilt` in `ArVCC4.cpp`, which is not among the given sources.
The spec and the header documentation say the angle is divided by 0.1125 and
the result rounded closer to zero. -/
def degToUnits (deg : ℚ) : ℤ :=
  truncTowardZero (deg / degPerUnit)

/-- Decoding a protocol unit count back into degrees. -/
def unitsToDeg (u : ℤ) : ℚ :=
  (u : ℚ) * degPerUnit

theorem truncTowardZero_abs_le (q : ℚ) : |(truncTowardZero q : ℚ)| ≤ |q| := by
  unfold truncTowardZero
  split
  case isTrue h =>
    have h0 : (0 : ℚ) ≤ (⌊q⌋ : ℚ) := by
      exact_mod_cast Int.floor_nonneg.mpr h
    rw [abs_of_nonneg h0, abs_of_nonneg h]
    exact Int.floor_le q
  case isFalse h =>
    have hq : q ≤ 0 := le_of_lt (lt_of_not_le h)
    have h0 : (⌈q⌉ : ℚ) ≤ 0 := by
      have : ⌈q⌉ ≤ (0 : ℤ) := Int.ceil_le.mpr (by exact_mod_cast hq)
      exact_mod_cast this
    rw [abs_of_nonpos h0, abs_of_nonpos hq]
    exact neg_le_neg (Int.le_ceil q)

theorem truncTowardZero_err_lt (q : ℚ) : |(truncTowardZero q : ℚ) - q| < 1 := by
  unfold truncTowardZero
  split
  case isTrue h =>
    have h1 : (⌊q⌋ : ℚ) ≤ q := Int.floor_le q
    have h2 : q < (⌊q⌋ : ℚ) + 1 := Int.lt_floor_add_one q
    rw [abs_sub_comm, abs_of_nonneg (by linarith)]
    linarith
  case isFalse h =>
    have h1 : q ≤ (⌈q⌉ : ℚ) := Int.le_ceil q
    have h2 : (⌈q⌉ : ℚ) < q + 1 := Int.ceil_lt_add_one q
    rw [abs_of_nonneg (by linarith)]
    linarith

/-- C3: for every pan angle in [−98°, 98°], the encoded protocol unit is the
truncation toward zero of angle / 0.1125, the magnitude of the re-decoded angle
never exceeds the requested angle, and decoding the unit back yields a value
within one unit (0.1125°) of the original. -/
theorem pan_unit_conversion (deg : ℚ) (hlo : (MIN_PAN : ℚ) ≤ deg)
    (hhi : deg ≤ (MAX_PAN : ℚ)) :
    degToUnits deg = truncTowardZero (deg / degPerUnit) ∧
    |unitsToDeg (degToUnits deg)| ≤ |deg| ∧
    |unitsToDeg (degToUnits deg) - deg| < degPerUnit := by
  refine ⟨rfl, ?_, ?_⟩
  · have hc : (0 : ℚ) < degPerUnit := by norm_num [degPerUnit]
    have h1 : |(truncTowardZero (deg / degPerUnit) : ℚ)| ≤ |deg / degPerUnit| :=
      truncTowardZero_abs_le (deg / degPerUnit)
    have h2 : |deg / degPerUnit| = |deg| / degPerUnit := by
      rw [abs_div, abs_of_pos hc]
    unfold unitsToDeg degToUnits
    rw [abs_mul, abs_of_pos hc]
    calc |(truncTowardZero (deg / degPerUnit) : ℚ)| * degPerUnit
        ≤ (|deg| / degPerUnit) * degPerUnit := by
          apply mul_le_mul_of_nonneg_right _ (le_of_lt hc)
          rw [← h2]; exact h1
      _ = |deg| := div_mul_cancel₀ _ (ne_of_gt hc)
  · have hc : (0 : ℚ) < degPerUnit := by norm_num [degPerUnit]
    have h1 : |(truncTowardZero (deg / degPerUnit) : ℚ) - deg / degPerUnit| < 1 :=
      truncTowardZero_err_lt (deg / degPerUnit)
    unfold unitsToDeg degToUnits
    have hrw : (truncTowardZero (deg / degPerUnit) : ℚ) * degPerUnit - deg =
        ((truncTowardZero (deg / degPerUnit) : ℚ) - deg / degPerUnit) * degPerUnit := by
      field_simp
    rw [hrw, abs_mul, abs_of_pos hc]
    calc |(truncTowardZero (deg / degPerUnit) : ℚ) - deg / degPerUnit| * degPerUnit
        < 1 * degPerUnit := by
          exact mul_lt_mul_of_pos_right h1 hc
      _ = degPerUnit := one_mul _

/-- Witness for C3 at the concrete pan angle 45°. -/
theorem pan_unit_conversion_witness :
    (MIN_PAN : ℚ) ≤ 45 ∧ (45 : ℚ) ≤ (MAX_PAN : ℚ) ∧
    (degToUnits 45 = truncTowardZero (45 / degPerUnit) ∧
     |unitsToDeg (degToUnits 45)| ≤ |(45 : ℚ)| ∧
     |unitsToDeg (degToUnits 45) - 45| < degPerUnit) :=
  ⟨by norm_num [MIN_PAN], by norm_num [MAX_PAN],
   pan_unit_conversion 45 (by norm_num [MIN_PAN]) (by norm_num [MAX_PAN])⟩

/-- C5: the driver limits are pan −98..98, tilt −30..88, pan slew 1..90, tilt
slew 1..69, zoom bounded below by 0; and for every instance the queries
getMaxPanSlew, getMinPanSlew, getMaxTiltSlew, getMinTiltSlew and getMinZoom
return the constants 90, 1, 69, 1 and 0 respectively. -/
theorem axis_limits_and_slew_queries (st : State) :
    getMaxPanSlew st = 90 ∧ getMinPanSlew st = 1 ∧
    getMaxTiltSlew st = 69 ∧ getMinTiltSlew st = 1 ∧
    getMinZoom st = 0 ∧
    MAX_PAN = 98 ∧ MIN_PAN = -98 ∧ MAX_TILT = 88 ∧ MIN_TILT = -30 ∧
    MAX_PAN_SLEW = 90 ∧ MIN_PAN_SLEW = 1 ∧
    MAX_TILT_SLEW = 69 ∧ MIN_TILT_SLEW = 1 ∧
    MIN_ZOOM = 0 ∧ MIN_ZOOM ≤ MAX_ZOOM_OPTIC := by
  refine ⟨?_, ?_, ?_, ?_, rfl, rfl, rfl, rfl, rfl, rfl, rfl, rfl, rfl, rfl, ?_⟩
  · norm_num [getMaxPanSlew, MAX_PAN_SLEW]
  · norm_num [getMinPanSlew, MIN_PAN_SLEW]
  · norm_num [getMaxTiltSlew, MAX_TILT_SLEW]
  · norm_num [getMinTiltSlew, MIN_TILT_SLEW]
  · norm_num [MIN_ZOOM, MAX_ZOOM_OPTIC]

/-- C8: panSlew and tiltSlew store their argument unmodified into the
corresponding desired-slew field and return true, with no validation or
clamping and no other field changed; haltPanTilt and haltZoom only set their
request flag and return true. -/
theorem slew_and_halt_setters (deg : ℚ) (st : State) :
    panSlew deg st = (true, { st with myPanSlewDesired := deg }) ∧
    tiltSlew deg st = (true, { st with myTiltSlewDesired := deg }) ∧
    haltPanTilt st = (true, { st with myHaltPanTiltRequested := true }) ∧
    haltZoom st = (true, { st with myHaltZoomRequested := true }) :=
  ⟨rfl, rfl, rfl, rfl⟩

/-- C9: power(state) writes only the desired-power field and returns true, and
getPower — which reads the confirmed power state, not the desired one — is
unchanged by the call. -/
theorem power_sets_only_desired (state : Bool) (st : State) :
    power state st = (true, { st with myPowerStateDesired := state }) ∧
    getPower (power state st).2 = getPower st :=
  ⟨rfl, rfl⟩

/-- C10: relative motion requests are computed against the current desired
position: panRel_i(deg) = panTilt_i(myPanDesired + deg, myTiltDesired),
tiltRel_i(deg) = panTilt_i(myPanDesired, myTiltDesired + deg), and a pan-only
request passes the existing desired tilt through unchanged. -/
theorem relative_motion_uses_desired (deg : ℚ) (st : State) :
    panRel_i deg st = panTilt_i (st.myPanDesired + deg) st.myTiltDesired st ∧
    tiltRel_i deg st = panTilt_i st.myPanDesired (st.myTiltDesired + deg) st ∧
    pan_i deg st = panTilt_i deg st.myTiltDesired st ∧
    (pan_i deg st).2.myTiltDesired = st.myTiltDesired :=
  ⟨rfl, rfl, rfl, rfl⟩

/-! Communication-mode detection.  The mode-detection logic lives in `camTask`
in `ArVCC4.cpp`, which is not among the given sources; the model below follows
the spec: the mode starts unknown; during detection the driver keeps sending
the init command; a well-formed response before BIDIRECTIONAL_TIMEOUT (5000 ms)
confirms bidirectional mode; if the window elapses with no response the driver
adopts unidirectional mode, stops waiting for responses, but still sends. -/

/-- The observable communication-detection state: the current mode, milliseconds
elapsed since detection began, whether the driver waits for responses, and how
many frames it has sent. -/
structure CommDetect where
  commType : CommState
  elapsedMs : ℕ
  waitingOnResponse : Bool
  sentFrames : ℕ
deriving DecidableEq, Repr

/-- The driver starts with the communication mode unknown, waiting to see a
response, with nothing yet sent. -/
def commInit : CommDetect :=
  { commType := CommState.COMM_UNKNOWN, elapsedMs := 0,
    waitingOnResponse := true, sentFrames := 0 }

/-- Modelled from the spec: one control-cycle step of the mode-detection logic
of `camTask` (implemented in `ArVCC4.cpp`, not among the given sources).
`respArrived` says whether a well-formed response was received this cycle and
`dt` is the wall-clock time advanced.  While the mode is unknown, a response
confirms bidirectional mode; otherwise, once 5000 ms have elapsed, the driver
adopts unidirectional mode and stops waiting for responses.  In every mode the
driver still dispatches a frame each step. -/
def commStep (respArrived : Bool) (dt : ℕ) (st : CommDetect) : CommDetect :=
  match st.commType with
  | CommState.COMM_UNKNOWN =>
      if respArrived then
        { commType := CommState.COMM_BIDIRECTIONAL, elapsedMs := st.elapsedMs + dt,
          waitingOnResponse := true, sentFrames := st.sentFrames + 1 }
      else if BIDIRECTIONAL_TIMEOUT ≤ st.elapsedMs + dt then
        { commType := CommState.COMM_UNIDIRECTIONAL, elapsedMs := st.elapsedMs + dt,
          waitingOnResponse := false, sentFrames := st.sentFrames + 1 }
      else
        { commType := CommState.COMM_UNKNOWN, elapsedMs := st.elapsedMs + dt,
          waitingOnResponse := true, sentFrames := st.sentFrames + 1 }
  | CommState.COMM_BIDIRECTIONAL =>
      { commType := CommState.COMM_BIDIRECTIONAL, elapsedMs := st.elapsedMs + dt,
        waitingOnResponse := true, sentFrames := st.sentFrames + 1 }
  | CommState.COMM_UNIDIRECTIONAL =>
      { commType := CommState.COMM_UNIDIRECTIONAL, elapsedMs := st.elapsedMs + dt,
        waitingOnResponse := false, sentFrames := st.sentFrames + 1 }

/-- Running a whole trace of control cycles, oldest input first. -/
def commRun (inputs : List (Bool × ℕ)) (st : CommDetect) : CommDetect :=
  inputs.foldl (fun s i => commStep i.1 i.2 s) st

theorem commStep_bidirectional_stays (r : Bool) (dt : ℕ) (st : CommDetect)
    (h : st.commType = CommState.COMM_BIDIRECTIONAL) :
    (commStep r dt st).commType = CommState.COMM_BIDIRECTIONAL := by
  unfold commStep
  rw [h]

/-- C1: the communication mode starts unknown; it becomes bidirectional if a
well-formed response arrives within the 5000 ms detection window; it degrades
to unidirectional when the window elapses with no response; once bidirectional
it is never downgraded on any subsequent trace; and once unidirectional the
driver no longer waits for responses but still sends a frame each cycle. -/
theorem comm_mode_lifecycle :
    commInit.commType = CommState.COMM_UNKNOWN ∧
    (∀ (st : CommDetect) (dt : ℕ), st.commType = CommState.COMM_UNKNOWN →
      st.elapsedMs + dt < BIDIRECTIONAL_TIMEOUT →
      (commStep true dt st).commType = CommState.COMM_BIDIRECTIONAL) ∧
    (∀ (st : CommDetect) (dt : ℕ), st.commType = CommState.COMM_UNKNOWN →
      BIDIRECTIONAL_TIMEOUT ≤ st.elapsedMs + dt →
      (commStep false dt st).commType = CommState.COMM_UNIDIRECTIONAL) ∧
    (∀ (inputs : List (Bool × ℕ)) (st : CommDetect),
      st.commType = CommState.COMM_BIDIRECTIONAL →
      (commRun inputs st).commType = CommState.COMM_BIDIRECTIONAL) ∧
    (∀ (st : CommDetect) (r : Bool) (dt : ℕ),
      st.commType = CommState.COMM_UNIDIRECTIONAL →
      (commStep r dt st).waitingOnResponse = false ∧
      (commStep r dt st).sentFrames = st.sentFrames + 1) := by
  refine ⟨rfl, ?_, ?_, ?_, ?_⟩
  · intro st dt h _hwin
    unfold commStep
    rw [h]
    simp
  · intro st dt h hto
    unfold commStep
    rw [h]
    simp [hto]
  · intro inputs
    induction inputs with
    | nil => intro st h; exact h
    | cons i rest ih =>
        intro st h
        have hstep := commStep_bidirectional_stays i.1 i.2 st h
        simpa [commRun] using ih (commStep i.1 i.2 st) hstep
  · intro st r dt h
    unfold commStep
    rw [h]
    exact ⟨rfl, rfl⟩

/-- Witness for C1: instantiating each hypothesised conjunct at concrete
states — a response 100 ms into detection yields bidirectional mode; 5000 ms
with no response yields unidirectional mode; a bidirectional state survives a
trace of dropped responses; a unidirectional state no longer waits but still
sends. -/
theorem comm_mode_lifecycle_witness :
    (commStep true 100 commInit).commType = CommState.COMM_BIDIRECTIONAL ∧
    (commStep false 5000 commInit).commType = CommState.COMM_UNIDIRECTIONAL ∧
    (commRun [(false, 300), (false, 300)]
      { commType := CommState.COMM_BIDIRECTIONAL, elapsedMs := 100,
        waitingOnResponse := true, sentFrames := 1 }).commType =
      CommState.COMM_BIDIRECTIONAL ∧
    (commStep false 300
      { commType := CommState.COMM_UNIDIRECTIONAL, elapsedMs := 5000,
        waitingOnResponse := false, sentFrames := 2 }).waitingOnResponse = false ∧
    (commStep false 300
      { commType := CommState.COMM_UNIDIRECTIONAL, elapsedMs := 5000,
        waitingOnResponse := false, sentFrames := 2 }).sentFrames = 3 :=
  ⟨comm_mode_lifecycle.2.1 commInit 100 rfl (by decide),
   comm_mode_lifecycle.2.2.1 commInit 5000 rfl (by decide),
   comm_mode_lifecycle.2.2.2.1 [(false, 300), (false, 300)] _ rfl,
   (comm_mode_lifecycle.2.2.2.2 _ false 300 rfl).1,
   (comm_mode_lifecycle.2.2.2.2 _ false 300 rfl).2⟩

/-! Idle-state command dispatch.  The dispatch logic lives in `camTask` in
`ArVCC4.cpp`, which is not among the given sources; the model below follows the
spec: once per cycle, desired values are compared to sent values per axis; at
most one command is dispatched; nothing is dispatched while a response or
timeout is pending (`myWaitingOnPacket`); priority is halts first, then power,
then pan/tilt, then zoom, then slew rates; a motion command is suppressed when
the divergence between desired and sent is within TOLERANCE (0.1). -/

/-- A command dispatched to the camera during one idle cycle. -/
inductive Cmd where
  | haltPanTiltCmd : Cmd
  | haltZoomCmd : Cmd
  | powerCmd (b : Bool) : Cmd
  | panTiltCmd (pan : ℚ) (tilt : ℚ) : Cmd
  | zoomCmd (z : ℤ) : Cmd
  | panSlewCmd (s : ℚ) : Cmd
  | tiltSlewCmd (s : ℚ) : Cmd
deriving DecidableEq, Repr

/-- The desired/sent state reconciled each idle cycle, the in-flight flag
(`myWaitingOnPacket`), and the log of transmitted commands, oldest first. -/
structure Dispatch where
  waiting : Bool
  panDesired : ℚ
  tiltDesired : ℚ
  panSent : ℚ
  tiltSent : ℚ
  zoomDesired : ℤ
  zoomSent : ℤ
  panSlewDesired : ℚ
  panSlewSent : ℚ
  tiltSlewDesired : ℚ
  tiltSlewSent : ℚ
  powerDesired : Bool
  powerSent : Bool
  haltPanTiltReq : Bool
  haltZoomReq : Bool
  transmitted : List Cmd
deriving DecidableEq, Repr

/-- The idle dispatch state of a freshly constructed driver: nothing in flight,
all desired values equal to the sent values, nothing transmitted. -/
def dispatchInit : Dispatch :=
  { waiting := false, panDesired := 0, tiltDesired := 0, panSent := 0,
    tiltSent := 0, zoomDesired := 0, zoomSent := 0, panSlewDesired := 0,
    panSlewSent := 0, tiltSlewDesired := 0, tiltSlewSent := 0,
    powerDesired := false, powerSent := false, haltPanTiltReq := false,
    haltZoomReq := false, transmitted := [] }

/-- Modelled from the spec: the command, if any, that the idle state of
`camTask` (implemented in `ArVCC4.cpp`, not among the given sources) dispatches
this cycle.  Nothing is sent while waiting on a packet; otherwise the first
divergent axis in priority order — halts, power, pan/tilt, zoom, slew rates —
produces the single command of the cycle, and motion commands are suppressed
when the desired-vs-sent divergence is within TOLERANCE. -/
def cycleCmd (st : Dispatch) : Option Cmd :=
  if st.waiting then none
  else if st.haltPanTiltReq then some Cmd.haltPanTiltCmd
  else if st.haltZoomReq then some Cmd.haltZoomCmd
  else if st.powerDesired ≠ st.powerSent then some (Cmd.powerCmd st.powerDesired)
  else if TOLERANCE < |st.panDesired - st.panSent| ∨
          TOLERANCE < |st.tiltDesired - st.tiltSent| then
    some (Cmd.panTiltCmd st.panDesired st.tiltDesired)
  else if st.zoomDesired ≠ st.zoomSent then some (Cmd.zoomCmd st.zoomDesired)
  else if TOLERANCE < |st.panSlewDesired - st.panSlewSent| then
    some (Cmd.panSlewCmd st.panSlewDesired)
  else if TOLERANCE < |st.tiltSlewDesired - st.tiltSlewSent| then
    some (Cmd.tiltSlewCmd st.tiltSlewDesired)
  else none

/-- Modelled from the spec: the state change when a command is transmitted.
The sent snapshot is updated at the moment of transmission and the in-flight
flag is raised. -/
def applyCmd (c : Cmd) (st : Dispatch) : Dispatch :=
  match c with
  | Cmd.haltPanTiltCmd =>
      { st with haltPanTiltReq := false, waiting := true,
                transmitted := st.transmitted ++ [c] }
  | Cmd.haltZoomCmd =>
      { st with haltZoomReq := false, waiting := true,
                transmitted := st.transmitted ++ [c] }
  | Cmd.powerCmd b =>
      { st with powerSent := b, waiting := true,
                transmitted := st.transmitted ++ [c] }
  | Cmd.panTiltCmd p t =>
      { st with panSent := p, tiltSent := t, waiting := true,
                transmitted := st.transmitted ++ [c] }
  | Cmd.zoomCmd z =>
      { st with zoomSent := z, waiting := true,
                transmitted := st.transmitted ++ [c] }
  | Cmd.panSlewCmd s =>
      { st with panSlewSent := s, waiting := true,
                transmitted := st.transmitted ++ [c] }
  | Cmd.tiltSlewCmd s =>
      { st with tiltSlewSent := s, waiting := true,
                transmitted := st.transmitted ++ [c] }

/-- One idle control cycle: dispatch at most one command. -/
def cycle (st : Dispatch) : Dispatch :=
  match cycleCmd st with
  | none => st
  | some c => applyCmd c st

/-- A caller pan request (`pan(v)`) only rewrites the desired pan value. -/
def setPanDesired (v : ℚ) (st : Dispatch) : Dispatch :=
  { st with panDesired := v }

/-- A confirming response (or unidirectional delay) clears the in-flight flag. -/
def confirmResponse (st : Dispatch) : Dispatch :=
  { st with waiting := false }

/-- C2: at most one command is dispatched per cycle; while a response is
pending nothing is sent; and issuing pan = 10 then pan = 20 before the first
command is confirmed yields exactly one transmitted pan command carrying the
latest desired value 20, and the next cycle (still unconfirmed) transmits
nothing further. -/
theorem single_inflight_command :
    (∀ st : Dispatch, (cycle st).transmitted.length ≤ st.transmitted.length + 1) ∧
    (∀ st : Dispatch, st.waiting = true → cycle st = st) ∧
    (cycle (setPanDesired 20 (setPanDesired 10 dispatchInit))).transmitted =
      [Cmd.panTiltCmd 20 0] ∧
    (cycle (cycle (setPanDesired 20 (setPanDesired 10 dispatchInit)))).transmitted =
      [Cmd.panTiltCmd 20 0] := by
  refine ⟨?_, ?_, ?_, ?_⟩
  · intro st
    cases hc : cycleCmd st with
    | none => simp [cycle, hc]
    | some c => cases c <;> simp [cycle, hc, applyCmd]
  · intro st h
    unfold cycle cycleCmd
    rw [h]
    simp
  · norm_num [cycle, cycleCmd, setPanDesired, dispatchInit, applyCmd, TOLERANCE]
  · norm_num [cycle, cycleCmd, setPanDesired, dispatchInit, applyCmd, TOLERANCE]

/-- Witness for C2: the in-flight guard instantiated at a concrete waiting
state — no new command is dispatched while a response is pending. -/
theorem single_inflight_command_witness :
    cycle { dispatchInit with waiting := true, panDesired := 50 } =
      { dispatchInit with waiting := true, panDesired := 50 } :=
  single_inflight_command.2.1 { dispatchInit with waiting := true, panDesired := 50 } rfl

/-- C7: a motion command is suppressed whenever the divergence between the
Desired and Sent values is within the fixed TOLERANCE of 0.1: whenever the
desired pan and tilt are within 0.1° of the sent values, no pan/tilt command is
dispatched that cycle, and if every other axis is also converged, no command at
all is dispatched. -/
theorem tolerance_suppression (st : Dispatch)
    (hw : st.waiting = false)
    (hp : |st.panDesired - st.panSent| ≤ TOLERANCE)
    (ht : |st.tiltDesired - st.tiltSent| ≤ TOLERANCE) :
    (∀ (p t : ℚ), cycleCmd st ≠ some (Cmd.panTiltCmd p t)) ∧
    (st.haltPanTiltReq = false → st.haltZoomReq = false →
     st.powerDesired = st.powerSent → st.zoomDesired = st.zoomSent →
     |st.panSlewDesired - st.panSlewSent| ≤ TOLERANCE →
     |st.tiltSlewDesired - st.tiltSlewSent| ≤ TOLERANCE →
     cycleCmd st = none) := by
  have hg : ¬(TOLERANCE < |st.panDesired - st.panSent| ∨
              TOLERANCE < |st.tiltDesired - st.tiltSent|) := by
    push_neg
    exact ⟨hp, ht⟩
  constructor
  · intro p t
    simp only [cycleCmd, hw]
    repeat' split <;> try simp_all
  · intro h1 h2 h3 h4 h5 h6
    simp [cycleCmd, hw, h1, h2, h3, h4, hg, not_lt.mpr h5, not_lt.mpr h6]

/-- Witness for C7: a desired pan of 0.05° against a sent pan of 0° is within
tolerance, so the cycle dispatches nothing. -/
theorem tolerance_suppression_witness :
    (∀ (p t : ℚ),
      cycleCmd { dispatchInit with panDesired := 1 / 20 } ≠
        some (Cmd.panTiltCmd p t)) ∧
    cycleCmd { dispatchInit with panDesired := 1 / 20 } = none :=
  ⟨(tolerance_suppression { dispatchInit with panDesired := 1 / 20 } rfl
      (by norm_num [dispatchInit, TOLERANCE, abs_le]) (by norm_num [dispatchInit, TOLERANCE, abs_le])).1,
   (tolerance_suppression { dispatchInit with panDesired := 1 / 20 } rfl
      (by norm_num [dispatchInit, TOLERANCE, abs_le]) (by norm_num [dispatchInit, TOLERANCE, abs_le])).2
     rfl rfl rfl rfl (by norm_num [dispatchInit, TOLERANCE, abs_le])
     (by norm_num [dispatchInit, TOLERANCE, abs_le])⟩

/-! Wire frame construction.  `ArVCC4Packet` and `ArVCC4::preparePacket` are
implemented in `ArVCC4.cpp` / `ArBasePacket.cpp`, which are not among the given
sources; the model below follows the spec: a command frame is the header byte
0xFF, the device-id byte (default 0x30), the opcode byte, 0–6 payload bytes
each packed individually as a signed/unsigned 8-bit value or a signed 32-bit
value split into 4 distinct bytes, and the footer byte 0xEF.  A response frame
is the response header 0xFE, the device id, the payload and the footer. -/

/-- One individually packed payload field of a command frame. -/
inductive PacketField where
  | sByte (v : ℤ) : PacketField
  | uByte (v : ℕ) : PacketField
  | s32 (v : ℤ) : PacketField
deriving DecidableEq, Repr

/-- The wire byte of a signed 8-bit value (two's complement). -/
def byteVal (v : ℤ) : ℕ :=
  (v % 256).toNat

/-- Modelled from the spec: the byte sequence of one packed payload field —
`byteToBuf` and `uByteToBuf` emit one byte; `byte4ToBuf` emits the signed
32-bit value as 4 distinct bytes, most significant first, never as a native
multi-byte word. -/
def packField : PacketField → List ℕ
  | PacketField.sByte v => [byteVal v]
  | PacketField.uByte v => [v % 256]
  | PacketField.s32 v =>
      [(v % 2 ^ 32).toNat / 2 ^ 24 % 256, (v % 2 ^ 32).toNat / 2 ^ 16 % 256,
       (v % 2 ^ 32).toNat / 2 ^ 8 % 256, (v % 2 ^ 32).toNat % 256]

/-- The concatenated payload bytes of a list of packed fields. -/
def payloadBytes : List PacketField → List ℕ
  | [] => []
  | f :: fs => packField f ++ payloadBytes fs

/-- Modelled from the spec: a finalized command frame — header 0xFF, device id
(default 0x30), opcode, packed payload, footer 0xEF. -/
def buildFrame (opcode : ℕ) (fs : List PacketField) : List ℕ :=
  [HEADER, DEVICEID, opcode % 256] ++ payloadBytes fs ++ [FOOTER]

/-- Modelled from the spec: a response frame — response header 0xFE, device id,
payload bytes, footer 0xEF. -/
def buildResponse (payload : List ℕ) : List ℕ :=
  [RESPONSE, DEVICEID] ++ payload.map (· % 256) ++ [FOOTER]

theorem getLast?_append_singleton (l : List ℕ) (a : ℕ) :
    (l ++ [a]).getLast? = some a := by
  induction l with
  | nil => rfl
  | cons x xs ih =>
      rw [List.cons_append, List.getLast?_cons, ih]
      cases xs <;> simp_all

theorem payloadBytes_bytes (fs : List PacketField) :
    ∀ b ∈ payloadBytes fs, b < 256 := by
  induction fs with
  | nil => intro b hb; cases hb
  | cons f rest ih =>
      intro b hb
      rcases List.mem_append.mp hb with hf | hr
      · cases f with
        | sByte v =>
            simp only [packField, List.mem_singleton] at hf
            subst hf
            unfold byteVal
            have h1 : 0 ≤ v % 256 := Int.emod_nonneg v (by norm_num)
            have h2 : v % 256 < 256 := Int.emod_lt_of_pos v (by norm_num)
            omega
        | uByte v =>
            simp only [packField, List.mem_singleton] at hf
            subst hf
            exact Nat.mod_lt _ (by norm_num)
        | s32 v =>
            simp only [packField, List.mem_cons, List.mem_singleton] at hf
            rcases hf with h | h | h | h | h
            all_goals first
              | (subst h; exact Nat.mod_lt _ (by norm_num))
              | cases h
      · exact ih b hr

/-- C4: every command frame begins with the header byte 0xFF, then the
device-id byte 0x30, then the opcode byte; every payload field is packed
individually into bytes, a signed 32-bit value into exactly 4 distinct bytes;
the frame ends with the footer byte 0xEF; and every response frame begins with
the response header 0xFE and ends with 0xEF. -/
theorem frame_format (opcode : ℕ) (fs : List PacketField) (payload : List ℕ)
    (hop : opcode < 256) :
    (buildFrame opcode fs).head? = some 0xFF ∧
    (buildFrame opcode fs)[1]? = some 0x30 ∧
    (buildFrame opcode fs)[2]? = some opcode ∧
    (buildFrame opcode fs).getLast? = some 0xEF ∧
    (∀ v : ℤ, (packField (PacketField.s32 v)).length = 4) ∧
    (∀ b ∈ payloadBytes fs, b < 256) ∧
    (buildResponse payload).head? = some 0xFE ∧
    (buildResponse payload).getLast? = some 0xEF := by
  refine ⟨rfl, rfl, ?_, ?_, fun v => rfl, payloadBytes_bytes fs, rfl, ?_⟩
  · simp [buildFrame, Nat.mod_eq_of_lt hop]
  · show (([HEADER, DEVICEID, opcode % 256] ++ payloadBytes fs) ++ [FOOTER]).getLast? =
      some 0xEF
    exact getLast?_append_singleton _ _
  · show (([RESPONSE, DEVICEID] ++ payload.map (· % 256)) ++ [FOOTER]).getLast? =
      some 0xEF
    exact getLast?_append_singleton _ _

/-- Witness for C4: the format theorem instantiated on a pan/tilt command frame
(opcode 0x62) with a one-byte and a 32-bit payload field, and a no-error
response payload. -/
theorem frame_format_witness :
    PANTILT < 256 ∧
    (buildFrame PANTILT [PacketField.uByte 0x30, PacketField.s32 400]).head? =
      some 0xFF ∧
    (buildFrame PANTILT [PacketField.uByte 0x30, PacketField.s32 400]).getLast? =
      some 0xEF :=
  ⟨by norm_num [PANTILT],
   (frame_format PANTILT [PacketField.uByte 0x30, PacketField.s32 400]
      [CAM_ERROR_NONE] (by norm_num [PANTILT])).1,
   (frame_format PANTILT [PacketField.uByte 0x30, PacketField.s32 400]
      [CAM_ERROR_NONE] (by norm_num [PANTILT])).2.2.2.1⟩

/-! Response status interpretation.  The response-processing logic lives in
`camTask` / `packetHandler` in `ArVCC4.cpp`, which is not among the given
sources; the model below follows the spec: the first payload byte of a response
is matched against the known error codes of the `ArVCC4::Error` enumeration,
any unknown code is classified as the unknown-error sentinel, and an
error-status response to a pan command fires the error notification with the
corresponding classification and leaves the confirmed Sent pan untouched. -/

/-- The classification of a response status byte, mirroring `ArVCC4::Error`. -/
inductive CamError where
  | errNone : CamError
  | errBusy : CamError
  | errParam : CamError
  | errMode : CamError
  | errUnknown : CamError
deriving DecidableEq, Repr

/-- The `ArVCC4::Error` enumeration value of each classification. -/
def errorCode : CamError → ℕ
  | CamError.errNone => CAM_ERROR_NONE
  | CamError.errBusy => CAM_ERROR_BUSY
  | CamError.errParam => CAM_ERROR_PARAM
  | CamError.errMode => CAM_ERROR_MODE
  | CamError.errUnknown => CAM_ERROR_UNKNOWN

/-- Modelled from the spec: interpretation of the first payload byte of a
response against the known error codes; every unknown code maps to the
unknown-error sentinel — the function is total, it never fails. -/
def classifyError (b : ℕ) : CamError :=
  if b = CAM_ERROR_NONE then CamError.errNone
  else if b = CAM_ERROR_BUSY then CamError.errBusy
  else if b = CAM_ERROR_PARAM then CamError.errParam
  else if b = CAM_ERROR_MODE then CamError.errMode
  else CamError.errUnknown

/-- The state relevant to processing the response to an in-flight pan command:
the confirmed Sent pan, the pan value the in-flight command attempted, the
per-cycle error flag, and the classification handed to the error callbacks. -/
structure PanCmdState where
  myPanSent : ℚ
  attemptedPan : ℚ
  myWasError : Bool
  errorClass : CamError
deriving DecidableEq, Repr

/-- Modelled from the spec: processing the status byte of the response to an
in-flight pan command.  A no-error status confirms the attempted pan into the
Sent value; any error status fires the error notification with its
classification and does not update the Sent pan to the attempted value. -/
def handlePanResponse (statusByte : ℕ) (st : PanCmdState) : PanCmdState :=
  match classifyError statusByte with
  | CamError.errNone =>
      { st with myPanSent := st.attemptedPan, myWasError := false }
  | e =>
      { st with myWasError := true, errorClass := e }

/-- C6: the first payload byte is interpreted against the known error codes
0x30 / 0x31 / 0x35 / 0x39; any unknown code maps to the 0xFF unknown-error
sentinel rather than failing; and a 0x35 parameter-error response to a pan
command fires the error notification with the parameter-error classification
and leaves the Sent pan un-updated. -/
theorem response_error_interpretation :
    classifyError 0x30 = CamError.errNone ∧
    classifyError 0x31 = CamError.errBusy ∧
    classifyError 0x35 = CamError.errParam ∧
    classifyError 0x39 = CamError.errMode ∧
    (∀ b : ℕ, b ≠ 0x30 → b ≠ 0x31 → b ≠ 0x35 → b ≠ 0x39 →
      errorCode (classifyError b) = 0xFF) ∧
    (∀ st : PanCmdState,
      (handlePanResponse 0x35 st).myWasError = true ∧
      (handlePanResponse 0x35 st).errorClass = CamError.errParam ∧
      (handlePanResponse 0x35 st).myPanSent = st.myPanSent) ∧
    (∀ st : PanCmdState,
      st.attemptedPan ≠ st.myPanSent →
      (handlePanResponse 0x35 st).myPanSent ≠ st.attemptedPan) := by
  refine ⟨rfl, rfl, rfl, rfl, ?_, ?_, ?_⟩
  · intro b h0 h1 h2 h3
    simp [classifyError, errorCode, CAM_ERROR_NONE, CAM_ERROR_BUSY,
      CAM_ERROR_PARAM, CAM_ERROR_MODE, CAM_ERROR_UNKNOWN, h0, h1, h2, h3]
  · intro st
    exact ⟨rfl, rfl, rfl⟩
  · intro st h
    show st.myPanSent ≠ st.attemptedPan
    exact fun hEq => h hEq.symm

/-- Witness for C6: the unknown status byte 0x42 maps to the 0xFF sentinel, and
a parameter-error response to a pan command that attempted 45° leaves the Sent
pan at 0° and fires the notification with the parameter-error classification. -/
theorem response_error_interpretation_witness :
    errorCode (classifyError 0x42) = 0xFF ∧
    (handlePanResponse 0x35
      { myPanSent := 0, attemptedPan := 45, myWasError := false,
        errorClass := CamError.errNone }).myWasError = true ∧
    (handlePanResponse 0x35
      { myPanSent := 0, attemptedPan := 45, myWasError := false,
        errorClass := CamError.errNone }).errorClass = CamError.errParam ∧
    (handlePanResponse 0x35
      { myPanSent := 0, attemptedPan := 45, myWasError := false,
        errorClass := CamError.errNone }).myPanSent ≠ 45 :=
  ⟨response_error_interpretation.2.2.2.2.1 0x42 (by decide) (by decide)
      (by decide) (by decide),
   (response_error_interpretation.2.2.2.2.2.1
      { myPanSent := 0, attemptedPan := 45, myWasError := false,
        errorClass := CamError.errNone }).1,
   (response_error_interpretation.2.2.2.2.2.1
      { myPanSent := 0, attemptedPan := 45, myWasError := false,
        errorClass := CamError.errNone }).2.1,
   response_error_interpretation.2.2.2.2.2.2
      { myPanSent := 0, attemptedPan := 45, myWasError := false,
        errorClass := CamError.errNone } (by norm_num)⟩

end ArVCC4
